import Mathlib

/-!
# Verification of the taskController boilerplate core

Shallow embedding of the lifecycle/concurrency core of the
`boilerplate-taskController` repository:

* `app.Daemon` — the signal-driven lifecycle state machine
  (`src/include/daemon.hpp`, `src/src/daemon.cpp`);
* `TaskManager` — the cancellable worker-task manager
  (`src/include/taskManager.hpp`);
* `cppsl.container.queueLockFree` — the single-producer/single-consumer
  lock-free queue (`src/lib/include/cppsl/container/queueLockFree.hpp`);
* `cppsl.container.DequeSafe` — the mutex-protected deque
  (`src/lib/include/cppsl/container/dequeSafe.hpp`);
* `app.AppContext` — the reference lifecycle context
  (`src/src/appContext.cpp`).

Stateful C++ methods are embedded as explicit state-passing functions.
Side effects that the properties talk about (log emissions, callback
invocations, stop requests, thread joins) are returned as explicit effect
lists.  C++ undefined behaviour (out-of-bounds vector indexing, control
flowing off the end of a value-returning function) is made visible with
`Option`: an outer `none` marks an execution that has no defined result.
-/

namespace app

/-- `Daemon::State` from `daemon.hpp`:
`enum class State { start, running, reload, stop, user1, user2 }`. -/
inductive State where
  | start
  | running
  | reload
  | stop
  | user1
  | user2
deriving DecidableEq, Repr

/-- Tags identifying which of the five optional callback slots of the
daemon got invoked during a call; used to record callback-invocation
effects. -/
inductive CallbackTag where
  | startCb
  | reloadCb
  | user1Cb
  | user2Cb
  | exitCb
deriving DecidableEq, Repr

/-- The daemon singleton's state: the lifecycle `m_state` field plus the
five optional callback slots.  A bound C++ callback
(`std::function<std::optional<bool>()>`) is modelled by the
`std::optional<bool>` value it returns when invoked once (the polling
method invokes each handler at most once per call); `none` in the outer
`Option` means the slot is unbound. -/
structure Daemon where
  m_state : State
  m_handlerBeforeToStart : Option (Option Bool)
  m_handlerReload : Option (Option Bool)
  m_handlerUser1 : Option (Option Bool)
  m_handlerUser2 : Option (Option Bool)
  m_handlerBeforeToExit : Option (Option Bool)
deriving DecidableEq, Repr

namespace Daemon

/-- `Daemon::perform_reload_if_required` (daemon.hpp:164-171): set state
to `running`; if the reload handler is bound, invoke it, and if the call
compares equal to `false` (i.e. it returned an engaged optional holding
`false`) set state to `stop`.  Returns the new daemon and the list of
callbacks invoked. -/
def perform_reload_if_required (d : Daemon) : Daemon × List CallbackTag :=
  let d1 := { d with m_state := State.running }
  match d.m_handlerReload with
  | none => (d1, [])
  | some r =>
      if r = some false then ({ d1 with m_state := State.stop }, [CallbackTag.reloadCb])
      else (d1, [CallbackTag.reloadCb])

/-- `Daemon::perform_user1_if_required` (daemon.hpp:176-183). -/
def perform_user1_if_required (d : Daemon) : Daemon × List CallbackTag :=
  let d1 := { d with m_state := State.running }
  match d.m_handlerUser1 with
  | none => (d1, [])
  | some r =>
      if r = some false then ({ d1 with m_state := State.stop }, [CallbackTag.user1Cb])
      else (d1, [CallbackTag.user1Cb])

/-- `Daemon::perform_user2_if_required` (daemon.hpp:188-195). -/
def perform_user2_if_required (d : Daemon) : Daemon × List CallbackTag :=
  let d1 := { d with m_state := State.running }
  match d.m_handlerUser2 with
  | none => (d1, [])
  | some r =>
      if r = some false then ({ d1 with m_state := State.stop }, [CallbackTag.user2Cb])
      else (d1, [CallbackTag.user2Cb])

/-- `Daemon::is_running` (daemon.hpp:123-132): dispatch on the pending
transient state, resolve it, then report whether the resolved state is
`running`.  Returns `(return value, new daemon, callbacks invoked)`. -/
def is_running (d : Daemon) : Bool × Daemon × List CallbackTag :=
  if d.m_state = State.reload then
    let (d', cbs) := perform_reload_if_required d
    (d'.m_state = State.running, d', cbs)
  else if d.m_state = State.user1 then
    let (d', cbs) := perform_user1_if_required d
    (d'.m_state = State.running, d', cbs)
  else if d.m_state = State.user2 then
    let (d', cbs) := perform_user2_if_required d
    (d'.m_state = State.running, d', cbs)
  else
    (d.m_state = State.running, d, [])

/-- Linux signal numbers for the five signals `daemon.hpp` binds:
`SIGINT`. -/
def ExitSignal : Nat := 2
/-- `SIGTERM`. -/
def TerminateSignal : Nat := 15
/-- `SIGHUP`. -/
def ReloadSignal : Nat := 1
/-- `SIGUSR1`. -/
def UserSignal1 : Nat := 10
/-- `SIGUSR2`. -/
def UserSignal2 : Nat := 12

/-- `Daemon::signal_handler` (daemon.cpp:44-66).  The handler first calls
`spdlog::info("Interrupt signal number [{}] received.", signal)` and then
switches on the signal number, storing the mapped state into the
singleton's `m_state`; an unrecognised signal leaves the state unchanged.
Returns the new lifecycle state together with the log lines the handler
emitted. -/
def signal_handler (signal : Nat) (st : State) : State × List String :=
  let logs := ["Interrupt signal number [" ++ toString signal ++ "] received."]
  if signal = ExitSignal ∨ signal = TerminateSignal then (State.stop, logs)
  else if signal = ReloadSignal then (State.reload, logs)
  else if signal = UserSignal1 then (State.user1, logs)
  else if signal = UserSignal2 then (State.user2, logs)
  else (st, logs)

end Daemon

end app

/-- C1: a daemon in a transient state (`reload`, `user1`, `user2`): one
`is_running` call resets the state to `running`, invokes the matching
bound callback (and nothing else), moves to `stop` exactly when that
callback is bound and returned `some false`, and returns `true` iff the
resolved state is `running`. -/
theorem C1_transient_poll (d : app.Daemon)
    (h : d.m_state = app.State.reload ∨ d.m_state = app.State.user1 ∨
         d.m_state = app.State.user2) :
    let r := app.Daemon.is_running d
    let handler :=
      if d.m_state = app.State.reload then d.m_handlerReload
      else if d.m_state = app.State.user1 then d.m_handlerUser1
      else d.m_handlerUser2
    let tag :=
      if d.m_state = app.State.reload then app.CallbackTag.reloadCb
      else if d.m_state = app.State.user1 then app.CallbackTag.user1Cb
      else app.CallbackTag.user2Cb
    (r.2.2 = if handler.isSome then [tag] else []) ∧
    (r.2.1.m_state = if handler = some (some false) then app.State.stop
                     else app.State.running) ∧
    (r.1 = true ↔ r.2.1.m_state = app.State.running) := by
  rcases h with h | h | h <;>
    simp only [app.Daemon.is_running, app.Daemon.perform_reload_if_required,
      app.Daemon.perform_user1_if_required, app.Daemon.perform_user2_if_required, h] <;>
    rcases d with ⟨st, hs, hr, h1, h2, he⟩ <;>
    subst h <;> simp <;>
    first
    | (rcases hr with _ | r
       · simp
       · by_cases hrf : r = some false <;> simp [hrf])
    | (rcases h1 with _ | r
       · simp
       · by_cases hrf : r = some false <;> simp [hrf])
    | (rcases h2 with _ | r
       · simp
       · by_cases hrf : r = some false <;> simp [hrf])

/-- Witness for C1 at a concrete daemon: state `reload`, reload callback
bound and returning `some false`. -/
theorem C1_transient_poll_witness :
    let d : app.Daemon :=
      { m_state := app.State.reload,
        m_handlerBeforeToStart := none,
        m_handlerReload := some (some false),
        m_handlerUser1 := none,
        m_handlerUser2 := none,
        m_handlerBeforeToExit := none }
    let r := app.Daemon.is_running d
    (r.2.2 = [app.CallbackTag.reloadCb]) ∧
    (r.2.1.m_state = app.State.stop) ∧
    (r.1 = true ↔ r.2.1.m_state = app.State.running) := by
  have h := C1_transient_poll
    { m_state := app.State.reload,
      m_handlerBeforeToStart := none,
      m_handlerReload := some (some false),
      m_handlerUser1 := none,
      m_handlerUser2 := none,
      m_handlerBeforeToExit := none }
    (Or.inl rfl)
  simpa using h

/-- C2: `stop` is terminal: `is_running` on a stopped daemon returns
`false`, invokes no callback and leaves the daemon (state included)
unchanged, so repeated calls behave identically. -/
theorem C2_stop_terminal (d : app.Daemon) (h : d.m_state = app.State.stop) :
    app.Daemon.is_running d = (false, d, []) := by
  simp [app.Daemon.is_running, h]

/-- Witness for C2 at a concrete stopped daemon. -/
theorem C2_stop_terminal_witness :
    app.Daemon.is_running
      { m_state := app.State.stop,
        m_handlerBeforeToStart := none,
        m_handlerReload := some (some true),
        m_handlerUser1 := none,
        m_handlerUser2 := none,
        m_handlerBeforeToExit := none } =
      (false,
       { m_state := app.State.stop,
         m_handlerBeforeToStart := none,
         m_handlerReload := some (some true),
         m_handlerUser1 := none,
         m_handlerUser2 := none,
         m_handlerBeforeToExit := none }, []) :=
  C2_stop_terminal _ rfl

/-- C3 (code bug evidence): the signal handler does log.  Delivering
`SIGHUP` stores `reload` as required by the fixed mapping, but the
handler also emits one `spdlog::info` line — contradicting the
requirement that it perform only the store and not log.  The same single
log line is emitted for every one of the five handled signals. -/
theorem C3_handler_logs :
    (app.Daemon.signal_handler app.Daemon.ReloadSignal app.State.running).1
        = app.State.reload ∧
    (app.Daemon.signal_handler app.Daemon.ReloadSignal app.State.running).2
        = ["Interrupt signal number [1] received."] ∧
    (app.Daemon.signal_handler app.Daemon.ExitSignal app.State.running).1
        = app.State.stop ∧
    (app.Daemon.signal_handler app.Daemon.TerminateSignal app.State.running).1
        = app.State.stop ∧
    (app.Daemon.signal_handler app.Daemon.UserSignal1 app.State.running).1
        = app.State.user1 ∧
    (app.Daemon.signal_handler app.Daemon.UserSignal2 app.State.running).1
        = app.State.user2 ∧
    ((app.Daemon.signal_handler app.Daemon.ExitSignal app.State.running).2 ≠ []) := by
  decide

/-- `TaskManager` (taskManager.hpp): the next task id counter
`m_taskId`, the id-keyed thread table `m_threads` (each entry carries its
joinable flag: `true` until the thread has been joined), and the
`m_stopSources` vector.  Each stop-source entry records the task id whose
token it was handed to at `StartTask` time; the C++ vector is positional,
so entries are addressed by index, not by that id. -/
structure TaskManager where
  m_taskId : Nat
  m_threads : List (Nat × Bool)
  m_stopSources : List Nat
deriving DecidableEq, Repr

namespace TaskManager

/-- A default-constructed `TaskManager`. -/
def init : TaskManager := { m_taskId := 0, m_threads := [], m_stopSources := [] }

/-- `TaskManager::StartTask` (taskManager.hpp:61-72): take the next id
from the counter, emplace a fresh joinable `std::jthread` under that id,
and append the new stop source to the vector. -/
def StartTask (m : TaskManager) : TaskManager :=
  { m_taskId := m.m_taskId + 1,
    m_threads := m.m_threads ++ [(m.m_taskId, true)],
    m_stopSources := m.m_stopSources ++ [m.m_taskId] }

/-- `TaskManager::StopAllTasks` (taskManager.hpp:78-89): request stop on
every stop source, join every joinable thread, then clear both
containers.  Returns the new manager state, the list of task ids whose
stop sources received a stop request, and the list of thread ids joined. -/
def StopAllTasks (m : TaskManager) : TaskManager × List Nat × List Nat :=
  ({ m with m_threads := [], m_stopSources := [] },
   m.m_stopSources,
   (m.m_threads.filter (fun p => p.2)).map (fun p => p.1))

/-- The `TaskManager` destructor (taskManager.hpp:50-52): its body is
exactly a call to `StopAllTasks`. -/
def destructor (m : TaskManager) : TaskManager × List Nat × List Nat :=
  StopAllTasks m

/-- `TaskManager::StopTask` (taskManager.hpp:96-111).  The guard compares
`id` against the *counter* `m_taskId`, not against table membership; when
the guard passes, the code indexes `m_stopSources[id]` positionally and
erases that slot, then finds-and-erases `id` in the thread table (joining
it when joinable).  The outer `Option` is `none` when the run has no
defined result: indexing `m_stopSources[id]` out of bounds is C++
undefined behaviour.  The returned value is an `Option Bool` because the
success path of the C++ function falls off the end of a `bool`-returning
function without a `return` statement, so no defined value is produced
(`none`). -/
def StopTask (m : TaskManager) (id : Nat) : Option (Option Bool × TaskManager) :=
  if m.m_taskId ≤ id then
    some (some false, m)
  else if id < m.m_stopSources.length then
    some (none,
      { m with
        m_stopSources := m.m_stopSources.eraseIdx id,
        m_threads := m.m_threads.filter (fun p => p.1 ≠ id) })
  else
    none

end TaskManager

/-- C4 (code bug evidence): stopping an id that was never issued does
return `false` and change nothing, but a second `StopTask` on an
already-removed id has no defined behaviour: after starting one task and
stopping it once, the second `StopTask 0` call indexes the now-empty
`m_stopSources` vector out of bounds (modelled as `none`).  Moreover even
the first, successful stop produces no defined return value, because the
function's success path has no `return` statement. -/
theorem C4_stop_task_bug :
    TaskManager.StopTask TaskManager.init 5 = some (some false, TaskManager.init) ∧
    TaskManager.StopTask (TaskManager.StartTask TaskManager.init) 0 =
      some (none, { m_taskId := 1, m_threads := [], m_stopSources := [] }) ∧
    TaskManager.StopTask { m_taskId := 1, m_threads := [], m_stopSources := [] } 0 =
      none := by
  decide

/-- C5: `StopAllTasks` requests a stop on every recorded stop source,
joins exactly the joinable threads, leaves both containers empty, is
idempotent (a second call finds nothing to stop or join and leaves the
state fixed), and the destructor performs exactly this operation. -/
theorem C5_stop_all_tasks (m : TaskManager) :
    let r := TaskManager.StopAllTasks m
    r.1.m_threads = [] ∧
    r.1.m_stopSources = [] ∧
    r.2.1 = m.m_stopSources ∧
    r.2.2 = (m.m_threads.filter (fun p => p.2)).map (fun p => p.1) ∧
    TaskManager.StopAllTasks r.1 = (r.1, [], []) ∧
    TaskManager.destructor m = r := by
  simp [TaskManager.StopAllTasks, TaskManager.destructor]

namespace cppsl.container

/-- `cppsl::container::queueLockFree<T>` (queueLockFree.hpp): the node
chain from the node pointed to by `m_head` up to and including the node
pointed to by `m_tail`, in `m_next` order.  Each node's `m_dataSp` shared
pointer is an `Option T` (`none` = null).  `m_head` is the first list
entry, `m_tail` the last; the chain is never empty (the constructor
allocates a permanent sentinel). -/
structure queueLockFree (T : Type) where
  nodes : List (Option T)
deriving DecidableEq, Repr

namespace queueLockFree

/-- The constructor `queueLockFree()` : `m_head = new node`,
`m_tail = m_head` — one sentinel node with a null payload. -/
def mk0 (T : Type) : queueLockFree T := ⟨[none]⟩

/-- `queueLockFree::empty` (queueLockFree.hpp:81-87): `true` iff
`m_head == m_tail`, i.e. iff the chain is the single sentinel node. -/
def isEmpty {T : Type} (q : queueLockFree T) : Bool :=
  q.nodes.length = 1

/-- `queueLockFree::push` (queueLockFree.hpp:155-162): allocate a fresh
empty node `p`, swap the new data into the *current* tail node's payload
slot, link the old tail to `p`, and publish `p` as the new tail. -/
def push {T : Type} (q : queueLockFree T) (new_value : T) : queueLockFree T :=
  ⟨q.nodes.dropLast ++ [some new_value, none]⟩

/-- `queueLockFree::pop_head` (queueLockFree.hpp:169-176): if
`m_head == m_tail` return null (`none`); otherwise advance `m_head` to
`m_head->m_next` and hand back the *old* head node.  The result carries
the old head node's payload and the advanced queue. -/
def pop_head {T : Type} (q : queueLockFree T) : Option (Option T × queueLockFree T) :=
  match q.nodes with
  | [] => none
  | [_] => none
  | x :: rest => some (x, ⟨rest⟩)

/-- `queueLockFree::try_pop` (queueLockFree.hpp:126-129): `pop_head`,
then the old head's `m_dataSp` — or a null shared pointer when the queue
was empty. -/
def try_pop {T : Type} (q : queueLockFree T) : Option T × queueLockFree T :=
  match pop_head q with
  | none => (none, q)
  | some (x, q') => (x, q')

/-- Push each value of `vs` in order. -/
def pushAll {T : Type} (q : queueLockFree T) : List T → queueLockFree T
  | [] => q
  | v :: vs => pushAll (push q v) vs

/-- Pop `n` times with `try_pop`, collecting the returned payloads in
order together with the final queue. -/
def popN {T : Type} : Nat → queueLockFree T → List (Option T) × queueLockFree T
  | 0, q => ([], q)
  | n + 1, q =>
      let (x, q') := try_pop q
      let (rest, qf) := popN n q'
      (x :: rest, qf)

theorem pushAll_eq {T : Type} (vs : List T) (l : List (Option T)) :
    pushAll ⟨l ++ [none]⟩ vs = ⟨l ++ vs.map some ++ [none]⟩ := by
  induction vs generalizing l with
  | nil => simp [pushAll]
  | cons v vs ih =>
      have hp : push (⟨l ++ [none]⟩ : queueLockFree T) v =
          ⟨(l ++ [some v]) ++ [none]⟩ := by
        simp [push]
      rw [pushAll, hp, ih]
      simp

theorem popN_of_mapped {T : Type} (vs : List T) :
    popN vs.length ⟨vs.map some ++ [none]⟩ = (vs.map some, ⟨[none]⟩) := by
  induction vs with
  | nil => simp [popN]
  | cons v vs ih =>
      simp only [List.length_cons, List.map_cons, List.cons_append, popN, try_pop, pop_head]
      cases h : vs.map some ++ [none] with
      | nil => simp at h
      | cons a l =>
          simp only []
          rw [← h, ih]

end queueLockFree

end cppsl.container

/-- C6: pushing `N` values into an empty `queueLockFree` and popping `N`
times yields exactly the pushed values in push order (each pop advancing
the head and returning the old head node's payload), the final queue is
the single sentinel again, and `empty()` holds (head = tail) afterwards;
before the pops, with `N` values queued, `empty()` holds iff `N = 0`. -/
theorem C6_queue_fifo_roundtrip (vs : List Nat) :
    cppsl.container.queueLockFree.popN vs.length
        (cppsl.container.queueLockFree.pushAll
          (cppsl.container.queueLockFree.mk0 Nat) vs) =
      (vs.map some, cppsl.container.queueLockFree.mk0 Nat) ∧
    (cppsl.container.queueLockFree.isEmpty
        (cppsl.container.queueLockFree.mk0 Nat) = true) ∧
    (cppsl.container.queueLockFree.isEmpty
        (cppsl.container.queueLockFree.pushAll
          (cppsl.container.queueLockFree.mk0 Nat) vs) = true ↔ vs = []) := by
  have hmk : cppsl.container.queueLockFree.mk0 Nat =
      ⟨([] : List (Option Nat)) ++ [none]⟩ := by
    simp [cppsl.container.queueLockFree.mk0]
  have hp : cppsl.container.queueLockFree.pushAll
      (cppsl.container.queueLockFree.mk0 Nat) vs = ⟨vs.map some ++ [none]⟩ := by
    rw [hmk, cppsl.container.queueLockFree.pushAll_eq]
    simp
  refine ⟨?_, by simp [cppsl.container.queueLockFree.isEmpty,
    cppsl.container.queueLockFree.mk0], ?_⟩
  · rw [hp, cppsl.container.queueLockFree.popN_of_mapped]
    simp [cppsl.container.queueLockFree.mk0]
  · rw [hp]
    simp [cppsl.container.queueLockFree.isEmpty, List.length_eq_zero]

namespace cppsl.container.DequeSafe

/-- `cppsl::container::DequeSafe<T>` holds `std::deque<T> m_container`
behind a mutex; in the sequential (single caller at a time) model each
operation is a function of the element sequence, front at the head of the
list.  `DequeSafe::push_back` (dequeSafe.hpp:147-151): lock, append at
the back, notify one waiter. -/
def push_back {T : Type} (q : List T) (new_value : T) : List T :=
  q ++ [new_value]

/-- `DequeSafe::try_pop_front` (dequeSafe.hpp:271-279): lock; if the
container is empty return `false` (`none` here); else hand out the front
element and pop it. -/
def try_pop_front {T : Type} (q : List T) : Option (T × List T) :=
  match q with
  | [] => none
  | x :: xs => some (x, xs)

/-- Outcome of a call to one of the blocking pop methods, observed in an
execution where no other thread touches the deque: either the call
returns, delivering the (optional) popped element and the remaining
sequence, or the condition-variable predicate never becomes true and the
call never returns. -/
inductive BlockingPopOutcome (T : Type) where
  | returns : Option T → List T → BlockingPopOutcome T
  | neverReturns
deriving DecidableEq, Repr

/-- `DequeSafe::wait_and_pop_front` (dequeSafe.hpp:163-170): lock, then
`m_condition.wait(lk, [this]{ return !m_container.empty(); })`, then pop
the front element.  The method has no timeout parameter; with no
concurrent pusher, an empty container means the wait predicate never
becomes true and the call never returns.  When it does return it always
delivers the front element. -/
def wait_and_pop_front {T : Type} (q : List T) : BlockingPopOutcome T :=
  match q with
  | [] => BlockingPopOutcome.neverReturns
  | x :: xs => BlockingPopOutcome.returns (some x) xs

/-- `DequeSafe::wait_and_pop_back` (dequeSafe.hpp:182-189): same wait,
then pop the back element. -/
def wait_and_pop_back {T : Type} (q : List T) : BlockingPopOutcome T :=
  match q with
  | [] => BlockingPopOutcome.neverReturns
  | x :: xs => BlockingPopOutcome.returns (some ((x :: xs).getLast (by simp)))
      ((x :: xs).dropLast)

/-- Modelled from the spec: the spec's blocking pop, which is claimed to
take an optional timeout duration (default zero meaning wait forever) and
to return a "no value" result when the deque stays empty until a positive
timeout elapses.  No such parameter or return path exists in
`dequeSafe.hpp`; this definition exists only to be compared with the
source's `wait_and_pop_front`. -/
def wait_and_pop_front_specTimeout {T : Type} (timeoutMs : Nat) (q : List T) :
    BlockingPopOutcome T :=
  match q with
  | [] =>
      if timeoutMs = 0 then BlockingPopOutcome.neverReturns
      else BlockingPopOutcome.returns none []
  | x :: xs => BlockingPopOutcome.returns (some x) xs

/-- Push every element of `vs` in order with `push_back`. -/
def pushBackAll {T : Type} (q : List T) : List T → List T
  | [] => q
  | v :: vs => pushBackAll (push_back q v) vs

/-- Pop `n` times with `try_pop_front`, collecting the extracted elements
in order together with the final sequence. -/
def drainFront {T : Type} : Nat → List T → List T × List T
  | 0, q => ([], q)
  | n + 1, q =>
      match try_pop_front q with
      | none => ([], q)
      | some (x, q') =>
          let (rest, qf) := drainFront n q'
          (x :: rest, qf)

theorem pushBackAll_eq {T : Type} (vs q : List T) :
    pushBackAll q vs = q ++ vs := by
  induction vs generalizing q with
  | nil => simp [pushBackAll]
  | cons v vs ih => simp [pushBackAll, push_back, ih]

theorem drainFront_all {T : Type} (vs : List T) :
    drainFront vs.length vs = (vs, []) := by
  induction vs with
  | nil => simp [drainFront]
  | cons v vs ih => simp [drainFront, try_pop_front, ih]

end cppsl.container.DequeSafe

/-- C7: inserting any finite sequence into a fresh `DequeSafe` via
`push_back` and then extracting with repeated `try_pop_front` yields the
inserted sequence in the same order, and the deque ends empty. -/
theorem C7_deque_fifo_roundtrip (vs : List Nat) :
    cppsl.container.DequeSafe.drainFront vs.length
        (cppsl.container.DequeSafe.pushBackAll ([] : List Nat) vs) = (vs, []) := by
  rw [cppsl.container.DequeSafe.pushBackAll_eq]
  simpa using cppsl.container.DequeSafe.drainFront_all vs

/-- C8 counterexample: the claim is false on the code.  The blocking pops
of `dequeSafe.hpp` take no timeout parameter, and on a deque that stays
empty they never return; in particular, with the deque empty and any
positive bound (100 ms here), `wait_and_pop_front` does not produce the
"no value" return the claim requires — that outcome is produced only by
the separately defined spec-modelled behaviour. -/
theorem C8_counterexample :
    cppsl.container.DequeSafe.wait_and_pop_front ([] : List Nat) =
      cppsl.container.DequeSafe.BlockingPopOutcome.neverReturns ∧
    cppsl.container.DequeSafe.wait_and_pop_front ([] : List Nat) ≠
      cppsl.container.DequeSafe.BlockingPopOutcome.returns none [] ∧
    cppsl.container.DequeSafe.wait_and_pop_back ([] : List Nat) =
      cppsl.container.DequeSafe.BlockingPopOutcome.neverReturns ∧
    cppsl.container.DequeSafe.wait_and_pop_front_specTimeout 100 ([] : List Nat) =
      cppsl.container.DequeSafe.BlockingPopOutcome.returns none [] := by
  decide

/-- C8 amended: `wait_and_pop_front` / `wait_and_pop_back` take no
timeout argument; they block indefinitely exactly when the deque is
empty, and whenever they return they deliver a value (never a "no value"
result).  Bounded/no-wait extraction is available only through the
`try_pop` variants. -/
theorem C8_blocking_pop_no_timeout (q : List Nat) :
    (cppsl.container.DequeSafe.wait_and_pop_front q =
        cppsl.container.DequeSafe.BlockingPopOutcome.neverReturns ↔ q = []) ∧
    (cppsl.container.DequeSafe.wait_and_pop_back q =
        cppsl.container.DequeSafe.BlockingPopOutcome.neverReturns ↔ q = []) ∧
    (∀ v rest, cppsl.container.DequeSafe.wait_and_pop_front q =
        cppsl.container.DequeSafe.BlockingPopOutcome.returns v rest →
        v.isSome = true) ∧
    (∀ v rest, cppsl.container.DequeSafe.wait_and_pop_back q =
        cppsl.container.DequeSafe.BlockingPopOutcome.returns v rest →
        v.isSome = true) := by
  cases q with
  | nil =>
      refine ⟨by simp [cppsl.container.DequeSafe.wait_and_pop_front],
        by simp [cppsl.container.DequeSafe.wait_and_pop_back], ?_, ?_⟩ <;>
        intro v rest h <;>
        simp [cppsl.container.DequeSafe.wait_and_pop_front,
          cppsl.container.DequeSafe.wait_and_pop_back] at h
  | cons x xs =>
      refine ⟨by simp [cppsl.container.DequeSafe.wait_and_pop_front],
        by simp [cppsl.container.DequeSafe.wait_and_pop_back], ?_, ?_⟩ <;>
        intro v rest h <;>
        simp [cppsl.container.DequeSafe.wait_and_pop_front,
          cppsl.container.DequeSafe.wait_and_pop_back] at h <;>
        simp [← h.1]

/-- Witness for the amended C8 statement: the empty deque blocks, and a
returning pop on `[5]` delivered a value. -/
theorem C8_blocking_pop_no_timeout_witness :
    cppsl.container.DequeSafe.wait_and_pop_front ([] : List Nat) =
      cppsl.container.DequeSafe.BlockingPopOutcome.neverReturns ∧
    (some 5 : Option Nat).isSome = true :=
  ⟨(C8_blocking_pop_no_timeout []).1.mpr rfl,
   (C8_blocking_pop_no_timeout [5]).2.2.1 (some 5) [] (by
     simp [cppsl.container.DequeSafe.wait_and_pop_front])⟩

namespace app.AppContext

/-- The configuration record as read by
`AppContext::validate_configuration` (appContext.cpp:73-101): the three
path strings it copies out and validates
(`config.pathConfigFolder`, `config.pathConfigFile`, `config.logFile`). -/
structure ConfigPaths where
  pathConfigFolder : String
  pathConfigFile : String
  logFile : String
deriving DecidableEq, Repr

/-- `AppContext::validate_path` (appContext.cpp:52-62): a non-empty path
that does not exist on the filesystem fails; an empty path, or an
existing one, passes.  The filesystem is abstracted by the predicate
`fsExists` standing for `std::filesystem::exists`. -/
def validate_path (fsExists : String → Bool) (path : String) : Bool :=
  if path ≠ "" then
    if fsExists path = false then false else true
  else true

/-- `AppContext::validate_configuration` (appContext.cpp:73-101): count a
validation error for each of the three paths that fails `validate_path`;
return `some false` when the count is positive and `some true`
otherwise.  No branch returns the disengaged optional. -/
def validate_configuration (fsExists : String → Bool) (config : ConfigPaths) :
    Option Bool :=
  let errorCount : Nat :=
    (if validate_path fsExists config.pathConfigFolder = false then 1 else 0) +
    (if validate_path fsExists config.pathConfigFile = false then 1 else 0) +
    (if validate_path fsExists config.logFile = false then 1 else 0)
  if errorCount > 0 then some false else some true

/-- `AppContext::process_executing` (appContext.cpp:183-187): the tick
policy on millisecond counts —
`min_duration > 5000ms ? 1000ms : min_duration + 1000ms`. -/
def process_executing (min_duration : Int) : Int :=
  if min_duration > 5000 then 1000 else min_duration + 1000

end app.AppContext

/-- C9: the reference tick policy returns the short 1000 ms default when
the requested minimum exceeds the 5000 ms ceiling, and the minimum plus
the fixed 1000 ms increment otherwise. -/
theorem C9_tick_policy (d : Int) :
    (5000 < d → app.AppContext.process_executing d = 1000) ∧
    (d ≤ 5000 → app.AppContext.process_executing d = d + 1000) := by
  constructor
  · intro h
    simp [app.AppContext.process_executing, h]
  · intro h
    simp [app.AppContext.process_executing, not_lt.mpr h]

/-- Witness for C9 on both sides of the ceiling: 6000 ms collapses to
1000 ms, 300 ms is extended to 1300 ms. -/
theorem C9_tick_policy_witness :
    app.AppContext.process_executing 6000 = 1000 ∧
    app.AppContext.process_executing 300 = 1300 :=
  ⟨(C9_tick_policy 6000).1 (by norm_num),
   by rw [(C9_tick_policy 300).2 (by norm_num)]; norm_num⟩

/-- C10: `validate_configuration` returns `some false` iff at least one
of the three checked paths is a non-empty string that does not exist;
empty paths are accepted, so the all-empty configuration validates as
`some true`; and the result is never the disengaged optional. -/
theorem C10_validate_configuration (fsExists : String → Bool)
    (config : app.AppContext.ConfigPaths) :
    (app.AppContext.validate_configuration fsExists config = some false ↔
      ((config.pathConfigFolder ≠ "" ∧ fsExists config.pathConfigFolder = false) ∨
       (config.pathConfigFile ≠ "" ∧ fsExists config.pathConfigFile = false) ∨
       (config.logFile ≠ "" ∧ fsExists config.logFile = false))) ∧
    (app.AppContext.validate_configuration fsExists config).isSome = true ∧
    app.AppContext.validate_configuration fsExists ⟨"", "", ""⟩ = some true := by
  have hpath : ∀ p : String, (app.AppContext.validate_path fsExists p = false ↔
      (p ≠ "" ∧ fsExists p = false)) := by
    intro p
    by_cases hp : p = "" <;> by_cases hf : fsExists p = false <;>
      simp [app.AppContext.validate_path, hp, hf]
  refine ⟨?_, ?_, ?_⟩
  · simp only [app.AppContext.validate_configuration, ← hpath]
    by_cases h1 : app.AppContext.validate_path fsExists config.pathConfigFolder = false <;>
      by_cases h2 : app.AppContext.validate_path fsExists config.pathConfigFile = false <;>
      by_cases h3 : app.AppContext.validate_path fsExists config.logFile = false <;>
      simp [h1, h2, h3]
  · simp only [app.AppContext.validate_configuration]
    by_cases h : ((if app.AppContext.validate_path fsExists config.pathConfigFolder = false then 1 else 0) +
        (if app.AppContext.validate_path fsExists config.pathConfigFile = false then 1 else 0) +
        (if app.AppContext.validate_path fsExists config.logFile = false then 1 else 0) : Nat) > 0 <;>
      simp [h]
  · simp [app.AppContext.validate_configuration, app.AppContext.validate_path]
